import Mathlib

/-!
Shallow embedding of the AutoML Decision Engine core (`src/app.py`):
the seasonality detector `check_seasonality` and the complexity scorer
`analyze_dataset`, together with the caller's score-to-tool decision
mapping.  External library calls (pandas `to_numeric` / `to_datetime`,
statsmodels `acf`) are abstracted as function parameters collected in
`Ext`; everything the repository's own code does is modelled directly.
In-place mutation of the dataframe (the `df[date_col] = pd.to_datetime(...)`
assignment in gate 4) is modelled by state passing: `analyze_dataset`
returns the final dataframe alongside the score and reasons.
-/

namespace AutoML

/-- A cell value of the table: numeric, string, datetime (as an integral
day number), or missing (`NaN`/`NaT`). -/
inductive Value where
  | num (q : ℚ)
  | str (s : String)
  | date (d : ℤ)
  | na
deriving DecidableEq, Repr

/-- A pandas column dtype, as far as the core logic inspects it
(`df[c].dtype == 'object'` is the only dtype test in the source). -/
inductive DType where
  | object
  | int64
  | float64
  | datetime64
deriving DecidableEq, Repr

/-- A named column: its inferred dtype and its cell values. -/
structure Col where
  dtype : DType
  values : List Value
deriving DecidableEq, Repr

/-- A dataframe: a row count (`len(df)`) and an ordered list of named
columns (`df.columns`). -/
structure DataFrame where
  nrows : ℕ
  cols : List (String × Col)
deriving DecidableEq, Repr

/-- `df.columns` — the ordered column names. -/
def DataFrame.columns (df : DataFrame) : List String :=
  df.cols.map (fun p => p.1)

/-- Column lookup `df[c]`, `none` when the column is absent. -/
def DataFrame.getCol? (df : DataFrame) (name : String) : Option Col :=
  (df.cols.find? (fun p => p.1 = name)).map (fun p => p.2)

/-- Total column lookup; the caller guarantees the looked-up columns
exist (the shell only offers existing columns), so the default is never
reached on in-contract inputs. -/
def DataFrame.getCol (df : DataFrame) (name : String) : Col :=
  (df.getCol? name).getD ⟨DType.object, []⟩

/-- In-place column assignment `df[name] = c` for an existing column
(the only assignment in the source overwrites the date column that was
just read, so the column exists whenever this runs). -/
def DataFrame.setCol (df : DataFrame) (name : String) (c : Col) : DataFrame :=
  ⟨df.nrows, df.cols.map (fun p => if p.1 = name then (p.1, c) else p)⟩

/-- `df[c].nunique()` — number of distinct non-missing values. -/
def Col.nunique (c : Col) : ℕ :=
  ((c.values.filter (fun v => v ≠ Value.na)).dedup).length

/-- The external library surface used by the core:
  * `toNum` — per-cell `pd.to_numeric(·, errors=coerce)`, `none` for
    invalid/missing cells;
  * `acf` — `statsmodels acf(series, nlags=40, fft=True)`, `Except`
    models a raised exception;
  * `toDatetime` — `pd.to_datetime` on a whole column, producing day
    numbers, `Except` models a raised parse failure. -/
structure Ext where
  toNum : Value → Option ℚ
  acf : List ℚ → Except Unit (List ℚ)
  toDatetime : List Value → Except String (List ℤ)

/-- The seasonality test applied to the acf array:
`acf_values[7] > 0.3 or any(acf_values[28:32] > 0.3)`.  Indexing at 7
raises (`none`) when the array is too short; the slice never raises. -/
def seasonalFromAcf (vals : List ℚ) : Option Bool :=
  match vals.get? 7 with
  | none => none
  | some v7 =>
      some (decide (v7 > 3/10) || ((vals.drop 28).take 4).any (fun v => decide (v > 3/10)))

/-- `check_seasonality(series)`: coerce to numeric dropping invalid
entries, return `false` below 50 valid points, otherwise test the acf
profile; every internal failure is swallowed to `false`. -/
def check_seasonality (toNum : Value → Option ℚ) (acf : List ℚ → Except Unit (List ℚ))
    (series : List Value) : Bool :=
  let clean := series.filterMap toNum
  if clean.length < 50 then false
  else
    match acf clean with
    | Except.error _ => false
    | Except.ok vals =>
        match seasonalFromAcf vals with
        | none => false
        | some b => b

/-- `feature_cols = [c for c in df.columns if c not in [target_col, date_col]]`. -/
def feature_cols (df : DataFrame) (target_col date_col : String) : List String :=
  df.columns.filter (fun c => decide (c ≠ target_col ∧ c ≠ date_col))

/-- Thousands grouping of a digit list given least-significant first. -/
def groupThrees : List Char → List (List Char)
  | [] => []
  | a :: b :: c :: rest => [a, b, c] :: groupThrees rest
  | l => [l]

/-- Python `f"{n:,}"` thousands-separated formatting of a natural number. -/
def thousandsSep (n : ℕ) : String :=
  String.intercalate ","
    (((groupThrees (toString n).data.reverse).map (fun g => String.mk g.reverse)).reverse)

/-- Gate 1 reason string. -/
def mvReason (count joined : String) : String :=
  "📊 **Multivariate Data Detected:** Found " ++ (count ++ (" extra features (" ++ (joined ++
    "...). Power BI works best with simple trends; Azure handles complex correlations better.")))

/-- Gate 2 reason string. -/
def granReason (col count : String) : String :=
  "🏪 **High Granularity:** The column \x27" ++ (col ++ ("\x27 has " ++ (count ++
    (" unique items. Training " ++ (count ++
    " separate models requires Azure\x27s \x27Many Models\x27 accelerator.")))))

/-- Gate 3 reason string. -/
def volReason (rows : String) : String :=
  "💾 **High Volume:** Dataset has " ++ (rows ++
    " rows. Power BI may hit timeout limits during training.")

/-- Gate 4 reason string. -/
def horizonReason (horizon history : String) : String :=
  "🔭 **Long Horizon:** You want to predict " ++ (horizon ++
    (" days ahead, but only have " ++ (history ++
    " days of history. This requires Azure\x27s Deep Learning (Prophet/TCN) for stability.")))

/-- Gate 4 warning string for a date-parsing failure. -/
def dateWarnReason (e : String) : String :=
  "⚠️ Could not calculate Date logic: " ++ e

/-- Gate 5 reason string. -/
def seasonReason : String :=
  "🌊 **Complex Seasonality:** Strong recurring patterns detected alongside other complexities."

/-- Gate 1 (multivariate complexity): fires when there are more than 2
feature columns. Returns (score increment, reasons appended). -/
def gate1 (df : DataFrame) (target_col date_col : String) : ℕ × List String :=
  let fc := feature_cols df target_col date_col
  if fc.length > 2 then
    (1, [mvReason (toString fc.length) (String.intercalate ", " (fc.take 3))])
  else (0, [])

/-- The gate 2 scan predicates: `potential_ids` membership
(`df[c].nunique() > 1 and df[c].dtype == 'object'`). -/
def isPotentialId (df : DataFrame) (c : String) : Bool :=
  decide ((df.getCol c).nunique > 1 ∧ (df.getCol c).dtype = DType.object)

/-- Gate 2 (granularity / many models): among categorical feature
columns with more than one distinct value, fire once on the first whose
distinct count exceeds 10 (`break` after the first match). -/
def gate2 (df : DataFrame) (target_col date_col : String) : ℕ × List String :=
  let potential_ids := (feature_cols df target_col date_col).filter (isPotentialId df)
  if potential_ids.length > 0 then
    match potential_ids.find? (fun c => decide ((df.getCol c).nunique > 10)) with
    | some col =>
        (1, [granReason col (toString (df.getCol col).nunique)])
    | none => (0, [])
  else (0, [])

/-- Gate 3 (volume): fires when the dataset has more than 500,000 rows. -/
def gate3 (df : DataFrame) : ℕ × List String :=
  if df.nrows > 500000 then
    (1, [volReason (thousandsSep df.nrows)])
  else (0, [])

/-- Gate 4 (history vs horizon ratio): parse the date column in place,
compute `history_days = (max - min).days`, and when positive fire on
`horizon_days / history_days > 0.25`; any failure is caught and turned
into a warning reason.  Returns the (possibly updated) dataframe, the
score increment, and the reasons appended. -/
def gate4 (ext : Ext) (df : DataFrame) (date_col : String) (horizon_days : ℤ) :
    DataFrame × ℕ × List String :=
  match df.getCol? date_col with
  | none => (df, 0, [dateWarnReason "KeyError"])
  | some c =>
      match ext.toDatetime c.values with
      | Except.error e => (df, 0, [dateWarnReason e])
      | Except.ok dates =>
          let df2 := df.setCol date_col ⟨DType.datetime64, dates.map Value.date⟩
          match dates.max?, dates.min? with
          | some mx, some mn =>
              let history_days : ℤ := mx - mn
              if history_days > 0 then
                if (horizon_days : ℚ) / (history_days : ℚ) > 1/4 then
                  (df2, 1, [horizonReason (toString horizon_days) (toString history_days)])
                else (df2, 0, [])
              else (df2, 0, [])
          | _, _ =>
              -- empty date column: pandas NaT arithmetic fails inside the
              -- same try block and is caught into the warning reason
              (df2, 0, [dateWarnReason "NaT"])

/-- Gate 5 (seasonality): run the detector on the target column of the
current (possibly gate-4-updated) frame; append one informational reason
when seasonal and the running score is positive; never changes the score. -/
def gate5 (ext : Ext) (df2 : DataFrame) (target_col : String) (score : ℕ) : List String :=
  if check_seasonality ext.toNum ext.acf (df2.getCol target_col).values ∧ score > 0 then
    [seasonReason]
  else []

/-- `analyze_dataset(df, target_col, date_col, horizon_days)`: run the
five gates in order, accumulating the score and the ordered reason list;
the returned dataframe is the state of `df` after the call (gate 4 may
have overwritten the date column in place). -/
def analyze_dataset (ext : Ext) (df : DataFrame) (target_col date_col : String)
    (horizon_days : ℤ) : DataFrame × ℕ × List String :=
  let g1 := gate1 df target_col date_col
  let g2 := gate2 df target_col date_col
  let g3 := gate3 df
  let g4 := gate4 ext df date_col horizon_days
  let score := g1.1 + g2.1 + g3.1 + g4.2.1
  let r5 := gate5 ext g4.1 target_col score
  (g4.1, score, g1.2 ++ g2.2 ++ g3.2 ++ g4.2.2 ++ r5)

/-- The two downstream tools the caller chooses between. -/
inductive Tool where
  | azureML
  | powerBI
deriving DecidableEq, Repr

/-- The caller's decision mapping: `score >= 1` recommends Azure ML
(the advanced tool), otherwise Power BI (the simple tool). -/
def decision (score : ℕ) : Tool :=
  if score ≥ 1 then Tool.azureML else Tool.powerBI

/-! ### Concrete fixtures used to evaluate the development -/

/-- Per-cell numeric coercion keeping numeric cells only (a concrete
instance of `pd.to_numeric(·, errors=coerce)`). -/
def numOf : Value → Option ℚ
  | Value.num q => some q
  | _ => none

/-- A concrete external-library instance: numeric coercion as `numOf`,
an acf call that raises, and a date parser mapping datetime cells to
their day number, strings to their length, and everything else to 0. -/
def extDemo : Ext where
  toNum := numOf
  acf := fun _ => Except.error ()
  toDatetime := fun vs => Except.ok (vs.map (fun v =>
    match v with
    | Value.date d => d
    | Value.num _ => 0
    | Value.str s => (s.data.length : ℤ)
    | Value.na => 0))

/-- A categorical column holding `n` distinct string values. -/
def catCol (n : ℕ) : Col :=
  ⟨DType.object, (List.range n).map (fun i => Value.str (toString i))⟩

/-- The C1 scenario dataset: date column spanning 100 days, a target,
3 feature columns of which `store` is categorical with 15 distinct
values, and 600,000 rows. -/
def dfC1 : DataFrame :=
  ⟨600000, [("ds", ⟨DType.datetime64, [Value.date 0, Value.date 100]⟩),
            ("y", ⟨DType.float64, [Value.num 1, Value.num 2]⟩),
            ("store", catCol 15),
            ("price", ⟨DType.float64, [Value.num 3]⟩),
            ("promo", ⟨DType.int64, [Value.num 0, Value.num 1]⟩)]⟩

/-- A small dataset whose date column is stored as strings, as after a
CSV load. -/
def dfStr : DataFrame :=
  ⟨2, [("ds", ⟨DType.object, [Value.str "a", Value.str "bb"]⟩),
       ("y", ⟨DType.float64, [Value.num 1, Value.num 2]⟩)]⟩

/-- A dataset with two qualifying high-cardinality categorical feature
columns (12 and 13 distinct values). -/
def dfTwoCats : DataFrame :=
  ⟨100, [("d", ⟨DType.datetime64, [Value.date 0, Value.date 10]⟩),
         ("t", ⟨DType.float64, [Value.num 5]⟩),
         ("a", catCol 12),
         ("b", catCol 13)]⟩

/-- A series of 49 valid numeric points. -/
def ser49 : List Value :=
  (List.range 49).map (fun i => Value.num i)

/-- An external-library instance whose date parser always raises. -/
def extFail : Ext where
  toNum := numOf
  acf := fun _ => Except.error ()
  toDatetime := fun _ => Except.error "parse failure"

/-! ### Helper lemmas on the dataframe operations -/

theorem String.data_app (a b : String) : (a ++ b).data = a.data ++ b.data := by
  cases a; cases b; rfl

/-- A string starting with one nonempty literal differs from a string
starting with another literal whose first character differs. -/
theorem append_ne_of_head {a b : String} (x : String)
    (hne : a.data.head? ≠ b.data.head?) (ha : a.data ≠ []) : a ++ x ≠ b := by
  intro he
  have hd : (a ++ x).data.head? = b.data.head? := by rw [he]
  rw [String.data_app, List.head?_append] at hd
  cases hc : a.data with
  | nil => exact ha hc
  | cons y ys =>
      rw [hc] at hd
      apply hne
      rw [hc]
      exact hd

theorem nrows_setCol (df : DataFrame) (n : String) (c : Col) :
    (df.setCol n c).nrows = df.nrows := rfl

theorem columns_setCol (df : DataFrame) (n : String) (c : Col) :
    (df.setCol n c).columns = df.columns := by
  unfold DataFrame.setCol DataFrame.columns
  simp only [List.map_map]
  apply List.map_congr_left
  intro p _
  by_cases h : p.1 = n <;> simp [h]

theorem find?_set_ne {m n : String} (c : Col) (h : m ≠ n) :
    ∀ l : List (String × Col),
      ((l.map (fun p => if p.1 = n then (p.1, c) else p)).find?
          (fun p => decide (p.1 = m))).map (fun p => p.2) =
        (l.find? (fun p => decide (p.1 = m))).map (fun p => p.2)
  | [] => rfl
  | p :: tl => by
      rw [List.map_cons]
      by_cases hp : p.1 = n
      · have hm : ¬ p.1 = m := fun hx => h (by rw [← hx, hp])
        rw [if_pos hp, List.find?_cons_of_neg _ (by simpa using hm),
          List.find?_cons_of_neg _ (by simpa using hm)]
        exact find?_set_ne c h tl
      · rw [if_neg hp]
        by_cases hm : p.1 = m
        · rw [List.find?_cons_of_pos _ (by simpa using hm),
            List.find?_cons_of_pos _ (by simpa using hm)]
        · rw [List.find?_cons_of_neg _ (by simpa using hm),
            List.find?_cons_of_neg _ (by simpa using hm)]
          exact find?_set_ne c h tl

theorem find?_set_self {n : String} (c : Col) :
    ∀ l : List (String × Col), (l.find? (fun p => decide (p.1 = n))).isSome →
      ((l.map (fun p => if p.1 = n then (p.1, c) else p)).find?
          (fun p => decide (p.1 = n))).map (fun p => p.2) = some c
  | [], h => by simp [List.find?] at h
  | p :: tl, h => by
      rw [List.map_cons]
      by_cases hp : p.1 = n
      · rw [if_pos hp, List.find?_cons_of_pos _ (by simpa using hp)]
        rfl
      · rw [if_neg hp, List.find?_cons_of_neg _ (by simpa using hp)]
        rw [List.find?_cons_of_neg _ (by simpa using hp)] at h
        exact find?_set_self c tl h

theorem getCol?_setCol_ne (df : DataFrame) {m n : String} (c : Col) (h : m ≠ n) :
    (df.setCol n c).getCol? m = df.getCol? m :=
  find?_set_ne c h df.cols

theorem getCol_setCol_ne (df : DataFrame) {m n : String} (c : Col) (h : m ≠ n) :
    (df.setCol n c).getCol m = df.getCol m := by
  unfold DataFrame.getCol
  rw [getCol?_setCol_ne df c h]

theorem getCol?_setCol_self (df : DataFrame) {n : String} (c : Col)
    (h : (df.getCol? n).isSome) : (df.setCol n c).getCol? n = some c := by
  apply find?_set_self
  unfold DataFrame.getCol? at h
  cases hf : df.cols.find? (fun p => decide (p.1 = n)) with
  | none => rw [hf] at h; simp at h
  | some q => simp

theorem setCol_setCol_self (df : DataFrame) (n : String) (c : Col) :
    (df.setCol n c).setCol n c = df.setCol n c := by
  unfold DataFrame.setCol
  simp only [List.map_map, DataFrame.mk.injEq, true_and]
  apply List.map_congr_left
  intro p _
  by_cases h : p.1 = n <;> simp [h]

/-! ### Generic `find?` helpers -/

theorem findq_filter {α : Type} (p q : α → Bool) :
    ∀ l : List α, (l.filter p).find? q = l.find? (fun a => p a && q a)
  | [] => rfl
  | a :: tl => by
      by_cases hp : p a = true
      · rw [List.filter_cons_of_pos hp]
        by_cases hq : q a = true
        · rw [List.find?_cons_of_pos _ hq, List.find?_cons_of_pos _ (by simp [hp, hq])]
        · rw [List.find?_cons_of_neg _ hq, List.find?_cons_of_neg _ (by simp [hp, hq])]
          exact findq_filter p q tl
      · rw [List.filter_cons_of_neg (by simpa using hp),
          List.find?_cons_of_neg _ (by simp [hp])]
        exact findq_filter p q tl

theorem findq_congr {α : Type} {p q : α → Bool} {l : List α}
    (h : ∀ x ∈ l, p x = q x) : l.find? p = l.find? q := by
  induction l with
  | nil => rfl
  | cons a tl ih =>
      have ha := h a (List.mem_cons_self a tl)
      by_cases hp : p a = true
      · rw [List.find?_cons_of_pos _ hp, List.find?_cons_of_pos _ (ha ▸ hp)]
      · rw [List.find?_cons_of_neg _ hp, List.find?_cons_of_neg _ (ha ▸ hp)]
        exact ih (fun x hx => h x (List.mem_cons_of_mem a hx))

/-- A successful `find?` splits the list at the first match: everything
before the found element fails the predicate. -/
theorem find?_eq_some_split {α : Type} {r : α → Bool} {l : List α} {a : α}
    (h : l.find? r = some a) :
    ∃ l₁ l₂, l = l₁ ++ a :: l₂ ∧ r a = true ∧ ∀ x ∈ l₁, r x = false := by
  induction l with
  | nil => simp [List.find?] at h
  | cons b tl ih =>
      by_cases hb : r b = true
      · rw [List.find?_cons_of_pos _ hb] at h
        obtain rfl := Option.some.inj h
        exact ⟨[], tl, rfl, hb, by simp⟩
      · rw [List.find?_cons_of_neg _ hb] at h
        obtain ⟨l₁, l₂, heq, hra, hall⟩ := ih h
        subst heq
        refine ⟨b :: l₁, l₂, rfl, hra, ?_⟩
        intro x hx
        rcases List.mem_cons.mp hx with rfl | hx
        · simpa using hb
        · exact hall x hx

/-! ### Gate decomposition and congruence lemmas -/

theorem analyze_frame_eq (ext : Ext) (df : DataFrame) (t d : String) (hz : ℤ) :
    (analyze_dataset ext df t d hz).1 = (gate4 ext df d hz).1 := rfl

theorem analyze_score_eq (ext : Ext) (df : DataFrame) (t d : String) (hz : ℤ) :
    (analyze_dataset ext df t d hz).2.1 =
      (gate1 df t d).1 + (gate2 df t d).1 + (gate3 df).1 + (gate4 ext df d hz).2.1 := rfl

theorem analyze_reasons_eq (ext : Ext) (df : DataFrame) (t d : String) (hz : ℤ) :
    (analyze_dataset ext df t d hz).2.2 =
      (gate1 df t d).2 ++ (gate2 df t d).2 ++ (gate3 df).2 ++ (gate4 ext df d hz).2.2 ++
        gate5 ext (gate4 ext df d hz).1 t
          ((gate1 df t d).1 + (gate2 df t d).1 + (gate3 df).1 + (gate4 ext df d hz).2.1) := rfl

theorem feature_cols_congr {df1 df2 : DataFrame} (t d : String)
    (h : df1.columns = df2.columns) : feature_cols df1 t d = feature_cols df2 t d := by
  unfold feature_cols
  rw [h]

theorem mem_feature_cols_ne {df : DataFrame} {t d c : String}
    (h : c ∈ feature_cols df t d) : c ≠ t ∧ c ≠ d := by
  unfold feature_cols at h
  have hm := List.mem_filter.mp h
  simpa using hm.2

theorem gate1_congr {df1 df2 : DataFrame} (t d : String)
    (h : df1.columns = df2.columns) : gate1 df1 t d = gate1 df2 t d := by
  unfold gate1
  rw [feature_cols_congr t d h]

theorem gate2_congr {df1 df2 : DataFrame} (t d : String)
    (hcols : df1.columns = df2.columns)
    (hget : ∀ x, x ≠ d → df1.getCol x = df2.getCol x) :
    gate2 df1 t d = gate2 df2 t d := by
  simp only [gate2]
  rw [feature_cols_congr t d hcols]
  have hpt : (feature_cols df2 t d).filter (isPotentialId df1)
      = (feature_cols df2 t d).filter (isPotentialId df2) := by
    apply List.filter_congr
    intro x hx
    unfold isPotentialId
    rw [hget x (mem_feature_cols_ne hx).2]
  rw [hpt]
  have hfind : ((feature_cols df2 t d).filter (isPotentialId df2)).find?
        (fun c => decide ((df1.getCol c).nunique > 10))
      = ((feature_cols df2 t d).filter (isPotentialId df2)).find?
        (fun c => decide ((df2.getCol c).nunique > 10)) := by
    apply findq_congr
    intro x hx
    rw [hget x (mem_feature_cols_ne (List.mem_of_mem_filter hx)).2]
  rw [hfind]
  cases hf : ((feature_cols df2 t d).filter (isPotentialId df2)).find?
      (fun c => decide ((df2.getCol c).nunique > 10)) with
  | none => rfl
  | some col =>
      have hcol : col ∈ feature_cols df2 t d :=
        List.mem_of_mem_filter (List.mem_of_find?_eq_some hf)
      simp only [hget col (mem_feature_cols_ne hcol).2]

theorem gate1_bounds (df : DataFrame) (t d : String) :
    (gate1 df t d).1 ≤ 1 ∧ (gate1 df t d).2.length ≤ 1 := by
  simp only [gate1]
  split <;> simp

theorem gate2_bounds (df : DataFrame) (t d : String) :
    (gate2 df t d).1 ≤ 1 ∧ (gate2 df t d).2.length ≤ 1 := by
  simp only [gate2]
  split
  · split <;> simp
  · simp

theorem gate3_bounds (df : DataFrame) :
    (gate3 df).1 ≤ 1 ∧ (gate3 df).2.length ≤ 1 := by
  simp only [gate3]
  split <;> simp

theorem gate4_bounds (ext : Ext) (df : DataFrame) (d : String) (hz : ℤ) :
    (gate4 ext df d hz).2.1 ≤ 1 ∧ (gate4 ext df d hz).2.2.length ≤ 1 := by
  simp only [gate4]
  split
  · simp
  · split
    · simp
    · split
      · split
        · split <;> simp
        · simp
      · simp

theorem gate5_bounds (ext : Ext) (df2 : DataFrame) (t : String) (score : ℕ) :
    (gate5 ext df2 t score).length ≤ 1 := by
  simp only [gate5]
  split <;> simp

/-! ### The gate-5 reason is distinct from every other reason string -/

theorem mvReason_ne_season (c j : String) : mvReason c j ≠ seasonReason :=
  append_ne_of_head _ (by decide) (by decide)

theorem granReason_ne_season (c n : String) : granReason c n ≠ seasonReason :=
  append_ne_of_head _ (by decide) (by decide)

theorem volReason_ne_season (r : String) : volReason r ≠ seasonReason :=
  append_ne_of_head _ (by decide) (by decide)

theorem horizonReason_ne_season (h₁ h₂ : String) : horizonReason h₁ h₂ ≠ seasonReason :=
  append_ne_of_head _ (by decide) (by decide)

theorem dateWarnReason_ne_season (e : String) : dateWarnReason e ≠ seasonReason :=
  append_ne_of_head _ (by decide) (by decide)

theorem season_not_in_gate1 (df : DataFrame) (t d : String) :
    seasonReason ∉ (gate1 df t d).2 := by
  simp only [gate1]
  split
  · simp only [List.mem_singleton]
    exact fun h => mvReason_ne_season _ _ h.symm
  · simp

theorem season_not_in_gate2 (df : DataFrame) (t d : String) :
    seasonReason ∉ (gate2 df t d).2 := by
  simp only [gate2]
  split
  · split
    · simp only [List.mem_singleton]
      exact fun h => granReason_ne_season _ _ h.symm
    · simp
  · simp

theorem season_not_in_gate3 (df : DataFrame) :
    seasonReason ∉ (gate3 df).2 := by
  simp only [gate3]
  split
  · simp only [List.mem_singleton]
    exact fun h => volReason_ne_season _ h.symm
  · simp

theorem season_not_in_gate4 (ext : Ext) (df : DataFrame) (d : String) (hz : ℤ) :
    seasonReason ∉ (gate4 ext df d hz).2.2 := by
  simp only [gate4]
  split
  · simp only [List.mem_singleton]
    exact fun h => dateWarnReason_ne_season _ h.symm
  · split
    · simp only [List.mem_singleton]
      exact fun h => dateWarnReason_ne_season _ h.symm
    · split
      · split
        · split
          · simp only [List.mem_singleton]
            exact fun h => horizonReason_ne_season _ _ h.symm
          · simp
        · simp
      · simp only [List.mem_singleton]
        exact fun h => dateWarnReason_ne_season _ h.symm

/-! ### Claim theorems -/

/-- C8: gate 3 fires on a strict row-count threshold: with at most
500,000 rows it contributes no score increment and no reason, and with
500,001 or more rows it increments the score by exactly 1 and emits one
volume reason containing the (thousands-separated) row count; through
`analyze_dataset` the total score reflects exactly that contribution. -/
theorem gate3_strict_volume_boundary (df : DataFrame) :
    (df.nrows ≤ 500000 → gate3 df = (0, [])) ∧
    (500000 < df.nrows → gate3 df = (1, [volReason (thousandsSep df.nrows)])) ∧
    (∀ ext t d hz, df.nrows ≤ 500000 →
      (analyze_dataset ext df t d hz).2.1 =
        (gate1 df t d).1 + (gate2 df t d).1 + (gate4 ext df d hz).2.1) ∧
    (∀ ext t d hz, 500000 < df.nrows →
      (analyze_dataset ext df t d hz).2.1 =
        (gate1 df t d).1 + (gate2 df t d).1 + (gate4 ext df d hz).2.1 + 1) := by
  have hlow : df.nrows ≤ 500000 → gate3 df = (0, []) := by
    intro h
    simp only [gate3]
    rw [if_neg (by omega)]
  have hhigh : 500000 < df.nrows → gate3 df = (1, [volReason (thousandsSep df.nrows)]) := by
    intro h
    simp only [gate3]
    rw [if_pos (by omega)]
  refine ⟨hlow, hhigh, ?_, ?_⟩
  · intro ext t d hz h
    have h3 : (gate3 df).1 = 0 := by rw [hlow h]
    rw [analyze_score_eq, h3]
    omega
  · intro ext t d hz h
    have h3 : (gate3 df).1 = 1 := by rw [hhigh h]
    rw [analyze_score_eq, h3]
    omega

/-- Witness for C8 at concrete inputs: 500,000 rows do not fire gate 3,
600,000 rows do. -/
theorem gate3_strict_volume_boundary_witness :
    gate3 ⟨500000, []⟩ = (0, []) ∧
      gate3 ⟨600000, []⟩ = (1, [volReason (thousandsSep 600000)]) :=
  ⟨(gate3_strict_volume_boundary ⟨500000, []⟩).1 (by norm_num),
   (gate3_strict_volume_boundary ⟨600000, []⟩).2.1 (by norm_num)⟩

/-- C5: `check_seasonality` is fail-safe: it returns `false` whenever
fewer than 50 valid numeric values remain after coercion, whenever the
acf computation raises, and whenever the acf result is too short for the
lag-7 index (the caught IndexError); in all other paths it returns the
boolean acf test, so it never propagates an exception. -/
theorem check_seasonality_failsafe (toNum : Value → Option ℚ)
    (acf : List ℚ → Except Unit (List ℚ)) (series : List Value) :
    ((series.filterMap toNum).length < 50 → check_seasonality toNum acf series = false) ∧
    (∀ e, acf (series.filterMap toNum) = Except.error e →
      check_seasonality toNum acf series = false) ∧
    (∀ vals, acf (series.filterMap toNum) = Except.ok vals → seasonalFromAcf vals = none →
      check_seasonality toNum acf series = false) := by
  refine ⟨fun h => ?_, fun e he => ?_, fun vals hv hn => ?_⟩
  · simp only [check_seasonality]
    rw [if_pos h]
  · by_cases hlen : (series.filterMap toNum).length < 50
    · simp only [check_seasonality]
      rw [if_pos hlen]
    · simp only [check_seasonality]
      rw [if_neg hlen, he]
  · by_cases hlen : (series.filterMap toNum).length < 50
    · simp only [check_seasonality]
      rw [if_pos hlen]
    · simp only [check_seasonality]
      rw [if_neg hlen, hv]
      simp only [hn]

/-- Witness for C5: on a series of 49 valid numeric points the detector
returns `false`. -/
theorem check_seasonality_failsafe_witness :
    check_seasonality extDemo.toNum extDemo.acf ser49 = false :=
  (check_seasonality_failsafe extDemo.toNum extDemo.acf ser49).1 (by decide)

/-- C10: the result of `analyze_dataset` is bounded: the score is at
most 4 (only gates 1 to 4 can each add 1) and the reasons list holds at
most 5 strings (at most one per gate). -/
theorem analyze_dataset_bounds (ext : Ext) (df : DataFrame) (t d : String) (hz : ℤ) :
    (analyze_dataset ext df t d hz).2.1 ≤ 4 ∧
      (analyze_dataset ext df t d hz).2.2.length ≤ 5 := by
  have h1 := gate1_bounds df t d
  have h2 := gate2_bounds df t d
  have h3 := gate3_bounds df
  have h4 := gate4_bounds ext df d hz
  have h5 := gate5_bounds ext (gate4 ext df d hz).1 t
    ((gate1 df t d).1 + (gate2 df t d).1 + (gate3 df).1 + (gate4 ext df d hz).2.1)
  constructor
  · rw [analyze_score_eq]
    omega
  · rw [analyze_reasons_eq]
    simp only [List.length_append]
    omega

/-- C1: on any dataset with exactly 3 feature columns, a categorical
feature column with 15 distinct values, 600,000 rows, a parsed date
range of 100 days and horizon 30 days, gates 1, 2, 3 and 4 each
contribute exactly one increment, `analyze_dataset` scores 4, and the
caller's decision mapping recommends the advanced tool (Azure ML). -/
theorem analyze_scenario_advanced (ext : Ext) (df : DataFrame) (t d idc : String)
    (c : Col) (dates : List ℤ) (mx mn : ℤ)
    (hfc : (feature_cols df t d).length = 3)
    (hid1 : idc ∈ feature_cols df t d)
    (hid2 : (df.getCol idc).dtype = DType.object)
    (hid3 : (df.getCol idc).nunique = 15)
    (hrows : df.nrows = 600000)
    (hcol : df.getCol? d = some c)
    (hparse : ext.toDatetime c.values = Except.ok dates)
    (hmax : dates.max? = some mx) (hmin : dates.min? = some mn)
    (hspan : mx - mn = 100) :
    (gate1 df t d).1 = 1 ∧ (gate2 df t d).1 = 1 ∧ (gate3 df).1 = 1 ∧
      (gate4 ext df d 30).2.1 = 1 ∧
      (analyze_dataset ext df t d 30).2.1 = 4 ∧
      decision (analyze_dataset ext df t d 30).2.1 = Tool.azureML := by
  have hg1 : (gate1 df t d).1 = 1 := by
    simp only [gate1]
    rw [if_pos (show (feature_cols df t d).length > 2 by rw [hfc]; norm_num)]
  have hmem : idc ∈ (feature_cols df t d).filter (isPotentialId df) := by
    apply List.mem_filter.mpr
    exact ⟨hid1, by simp [isPotentialId, hid2, hid3]⟩
  have hg2 : (gate2 df t d).1 = 1 := by
    have hsome : (((feature_cols df t d).filter (isPotentialId df)).find?
        (fun c => decide ((df.getCol c).nunique > 10))).isSome := by
      rw [List.find?_isSome]
      exact ⟨idc, hmem, by simp [hid3]⟩
    simp only [gate2]
    rw [if_pos (List.length_pos.mpr (List.ne_nil_of_mem hmem))]
    cases hfind : ((feature_cols df t d).filter (isPotentialId df)).find?
        (fun c => decide ((df.getCol c).nunique > 10)) with
    | none => rw [hfind] at hsome; simp at hsome
    | some col => rfl
  have hg3 : (gate3 df).1 = 1 := by
    simp only [gate3]
    rw [if_pos (show df.nrows > 500000 by rw [hrows]; norm_num)]
  have hg4 : (gate4 ext df d 30).2.1 = 1 := by
    simp only [gate4, hcol, hparse, hmax, hmin, hspan]
    norm_num
  have hscore : (analyze_dataset ext df t d 30).2.1 = 4 := by
    rw [analyze_score_eq, hg1, hg2, hg3, hg4]
  exact ⟨hg1, hg2, hg3, hg4, hscore, by rw [hscore]; rfl⟩

/-- Witness for C1: the scenario holds on the concrete `dfC1`. -/
theorem analyze_scenario_advanced_witness :
    (gate1 dfC1 "y" "ds").1 = 1 ∧ (gate2 dfC1 "y" "ds").1 = 1 ∧ (gate3 dfC1).1 = 1 ∧
      (gate4 extDemo dfC1 "ds" 30).2.1 = 1 ∧
      (analyze_dataset extDemo dfC1 "y" "ds" 30).2.1 = 4 ∧
      decision (analyze_dataset extDemo dfC1 "y" "ds" 30).2.1 = Tool.azureML :=
  analyze_scenario_advanced extDemo dfC1 "y" "ds" "store"
    ⟨DType.datetime64, [Value.date 0, Value.date 100]⟩ [0, 100] 100 0
    (by decide) (by decide) (by decide) (by decide) (by decide)
    (by decide) (by rfl) (by decide) (by decide) (by decide)

/-- C3: gate 4 fires on a strict inequality: with 100 days of parsed
history, horizon 26 (ratio 0.26) increments the score and emits the
horizon reason while horizon 25 (ratio exactly 0.25) does not increment
and emits nothing, so the total score differs by exactly 1; and whenever
the parsed history span is zero, gate 4 neither fires nor emits a reason
for any horizon. -/
theorem gate4_strict_ratio_boundary (ext : Ext) (df : DataFrame) (t d : String)
    (c : Col) (dates : List ℤ) (mx mn : ℤ)
    (hcol : df.getCol? d = some c)
    (hparse : ext.toDatetime c.values = Except.ok dates)
    (hmax : dates.max? = some mx) (hmin : dates.min? = some mn)
    (hspan : mx - mn = 100) :
    (gate4 ext df d 26).2.1 = 1 ∧
      (gate4 ext df d 26).2.2 = [horizonReason (toString (26 : ℤ)) (toString (100 : ℤ))] ∧
      (gate4 ext df d 25).2.1 = 0 ∧ (gate4 ext df d 25).2.2 = [] ∧
      (analyze_dataset ext df t d 26).2.1 = (analyze_dataset ext df t d 25).2.1 + 1 ∧
      (∀ (df₂ : DataFrame) (c₂ : Col) (dates₂ : List ℤ) (m : ℤ) (hz : ℤ),
        df₂.getCol? d = some c₂ → ext.toDatetime c₂.values = Except.ok dates₂ →
        dates₂.max? = some m → dates₂.min? = some m →
        (gate4 ext df₂ d hz).2.1 = 0 ∧ (gate4 ext df₂ d hz).2.2 = []) := by
  have h26 : (gate4 ext df d 26).2.1 = 1 ∧
      (gate4 ext df d 26).2.2 = [horizonReason (toString (26 : ℤ)) (toString (100 : ℤ))] := by
    simp only [gate4, hcol, hparse, hmax, hmin, hspan]
    norm_num
  have h25 : (gate4 ext df d 25).2.1 = 0 ∧ (gate4 ext df d 25).2.2 = [] := by
    simp only [gate4, hcol, hparse, hmax, hmin, hspan]
    norm_num
  refine ⟨h26.1, h26.2, h25.1, h25.2, ?_, ?_⟩
  · rw [analyze_score_eq, analyze_score_eq, h26.1, h25.1]
  · intro df₂ c₂ dates₂ m hz hcol₂ hparse₂ hmax₂ hmin₂
    simp only [gate4, hcol₂, hparse₂, hmax₂, hmin₂, sub_self]
    norm_num

/-- Witness for C3 on the concrete `dfC1` (100-day history): horizon 26
fires, horizon 25 does not, and the zero-span clause applied to a
one-date dataset. -/
theorem gate4_strict_ratio_boundary_witness :
    (gate4 extDemo dfC1 "ds" 26).2.1 = 1 ∧
      (gate4 extDemo dfC1 "ds" 26).2.2 =
        [horizonReason (toString (26 : ℤ)) (toString (100 : ℤ))] ∧
      (gate4 extDemo dfC1 "ds" 25).2.1 = 0 ∧ (gate4 extDemo dfC1 "ds" 25).2.2 = [] ∧
      (analyze_dataset extDemo dfC1 "y" "ds" 26).2.1 =
        (analyze_dataset extDemo dfC1 "y" "ds" 25).2.1 + 1 ∧
      (∀ (df₂ : DataFrame) (c₂ : Col) (dates₂ : List ℤ) (m : ℤ) (hz : ℤ),
        df₂.getCol? "ds" = some c₂ → extDemo.toDatetime c₂.values = Except.ok dates₂ →
        dates₂.max? = some m → dates₂.min? = some m →
        (gate4 extDemo df₂ "ds" hz).2.1 = 0 ∧ (gate4 extDemo df₂ "ds" hz).2.2 = []) :=
  gate4_strict_ratio_boundary extDemo dfC1 "y" "ds"
    ⟨DType.datetime64, [Value.date 0, Value.date 100]⟩ [0, 100] 100 0
    (by decide) (by rfl) (by decide) (by decide) (by decide)

/-- C6: when gate 4's date parsing raises, `analyze_dataset` does not
propagate: gate 4 leaves the frame unchanged, adds no score, and appends
exactly one warning reason in place of the ratio computation; gate 5 is
still evaluated afterwards and the call returns normally. -/
theorem analyze_parse_failure (ext : Ext) (df : DataFrame) (t d : String) (hz : ℤ)
    (c : Col) (e : String)
    (hcol : df.getCol? d = some c)
    (hparse : ext.toDatetime c.values = Except.error e) :
    gate4 ext df d hz = (df, 0, [dateWarnReason e]) ∧
      (analyze_dataset ext df t d hz).2.1 =
        (gate1 df t d).1 + (gate2 df t d).1 + (gate3 df).1 ∧
      (analyze_dataset ext df t d hz).2.2 =
        (gate1 df t d).2 ++ (gate2 df t d).2 ++ (gate3 df).2 ++ [dateWarnReason e] ++
          gate5 ext df t ((gate1 df t d).1 + (gate2 df t d).1 + (gate3 df).1) ∧
      (analyze_dataset ext df t d hz).1 = df := by
  have hg4 : gate4 ext df d hz = (df, 0, [dateWarnReason e]) := by
    simp only [gate4, hcol, hparse]
  have hsc : (gate4 ext df d hz).2.1 = 0 := by rw [hg4]
  have hrs : (gate4 ext df d hz).2.2 = [dateWarnReason e] := by rw [hg4]
  have hfr : (gate4 ext df d hz).1 = df := by rw [hg4]
  refine ⟨hg4, ?_, ?_, ?_⟩
  · rw [analyze_score_eq, hsc, Nat.add_zero]
  · rw [analyze_reasons_eq, hsc, hrs, hfr, Nat.add_zero]
  · rw [analyze_frame_eq, hfr]

/-- Witness for C6: with a parser that raises, the call returns the
frame unchanged, no gate-4 score, and the single warning reason. -/
theorem analyze_parse_failure_witness :
    gate4 extFail dfStr "ds" 30 = (dfStr, 0, [dateWarnReason "parse failure"]) ∧
      (analyze_dataset extFail dfStr "y" "ds" 30).2.1 =
        (gate1 dfStr "y" "ds").1 + (gate2 dfStr "y" "ds").1 + (gate3 dfStr).1 ∧
      (analyze_dataset extFail dfStr "y" "ds" 30).2.2 =
        (gate1 dfStr "y" "ds").2 ++ (gate2 dfStr "y" "ds").2 ++ (gate3 dfStr).2 ++
          [dateWarnReason "parse failure"] ++
          gate5 extFail dfStr "y"
            ((gate1 dfStr "y" "ds").1 + (gate2 dfStr "y" "ds").1 + (gate3 dfStr).1) ∧
      (analyze_dataset extFail dfStr "y" "ds" 30).1 = dfStr :=
  analyze_parse_failure extFail dfStr "y" "ds" 30
    ⟨DType.object, [Value.str "a", Value.str "bb"]⟩ "parse failure" (by decide) (by rfl)

/-- C2 counterexample: `analyze_dataset` does not leave the dataset
unchanged — on a frame whose date column holds strings, the call
overwrites that column in place with the parsed datetime values. -/
theorem analyze_mutates_date_column :
    ((analyze_dataset extDemo dfStr "y" "ds" 30).1.getCol "ds").values ≠
      (dfStr.getCol "ds").values := by
  have hc : dfStr.getCol? "ds" = some ⟨DType.object, [Value.str "a", Value.str "bb"]⟩ := by
    decide
  have hp : extDemo.toDatetime [Value.str "a", Value.str "bb"] =
      Except.ok [(1 : ℤ), 2] := by rfl
  have hmx : ([(1 : ℤ), 2]).max? = some 2 := by decide
  have hmn : ([(1 : ℤ), 2]).min? = some 1 := by decide
  have h1 : (analyze_dataset extDemo dfStr "y" "ds" 30).1 =
      dfStr.setCol "ds" ⟨DType.datetime64, [Value.date 1, Value.date 2]⟩ := by
    rw [analyze_frame_eq]
    simp only [gate4, hc, hp, hmx, hmn]
    norm_num
  rw [h1]
  decide

/-- The shape of the frame returned by gate 4: either untouched, or the
date column overwritten with the parsed datetime values. -/
theorem gate4_frame_cases (ext : Ext) (df : DataFrame) (d : String) (hz : ℤ) :
    (gate4 ext df d hz).1 = df ∨
      ∃ c dates, df.getCol? d = some c ∧ ext.toDatetime c.values = Except.ok dates ∧
        (gate4 ext df d hz).1 = df.setCol d ⟨DType.datetime64, dates.map Value.date⟩ := by
  cases hc : df.getCol? d with
  | none => left; simp only [gate4, hc]
  | some c =>
      cases hp : ext.toDatetime c.values with
      | error e => left; simp only [gate4, hc, hp]
      | ok dates =>
          right
          refine ⟨c, dates, rfl, hp, ?_⟩
          cases hmx : dates.max? with
          | none =>
              cases hmn : dates.min? with
              | none => simp only [gate4, hc, hp, hmx, hmn]
              | some mn => simp only [gate4, hc, hp, hmx, hmn]
          | some mx =>
              cases hmn : dates.min? with
              | none => simp only [gate4, hc, hp, hmx, hmn]
              | some mn =>
                  simp only [gate4, hc, hp, hmx, hmn]
                  split
                  · split <;> rfl
                  · rfl

/-- C2 amended: `analyze_dataset` leaves every column other than the
date column unchanged (and preserves the column names and row count);
when date parsing fails the whole frame is returned untouched; only the
date column may be overwritten (with its parsed datetime values). -/
theorem analyze_frame_effect (ext : Ext) (df : DataFrame) (t d : String) (hz : ℤ) :
    (∀ x, x ≠ d → (analyze_dataset ext df t d hz).1.getCol? x = df.getCol? x) ∧
      (analyze_dataset ext df t d hz).1.columns = df.columns ∧
      (analyze_dataset ext df t d hz).1.nrows = df.nrows ∧
      (∀ c e, df.getCol? d = some c → ext.toDatetime c.values = Except.error e →
        (analyze_dataset ext df t d hz).1 = df) := by
  rw [analyze_frame_eq]
  rcases gate4_frame_cases ext df d hz with hf | ⟨c, dates, hc, hp, hf⟩
  · rw [hf]
    exact ⟨fun x _ => rfl, rfl, rfl, fun _ _ _ _ => rfl⟩
  · rw [hf]
    refine ⟨fun x hx => getCol?_setCol_ne df _ hx, columns_setCol df _ _, rfl, ?_⟩
    intro c' e hc' hp'
    rw [hc'] at hc
    obtain rfl := Option.some.inj hc
    rw [hp'] at hp
    simp at hp

/-- Witness for C2's amended claim: on the concrete `dfStr`, the target
column is untouched and a failing parser leaves the frame unchanged. -/
theorem analyze_frame_effect_witness :
    (analyze_dataset extDemo dfStr "y" "ds" 30).1.getCol? "y" = dfStr.getCol? "y" ∧
      (analyze_dataset extFail dfStr "y" "ds" 30).1 = dfStr :=
  ⟨(analyze_frame_effect extDemo dfStr "y" "ds" 30).1 "y" (by decide),
   (analyze_frame_effect extFail dfStr "y" "ds" 30).2.2.2
     ⟨DType.object, [Value.str "a", Value.str "bb"]⟩ "parse failure" (by decide) (by rfl)⟩

/-- C7: gate 5 never changes the score — `analyze_dataset` returns the
score accumulated by gates 1 to 4; the seasonality reason is appended as
the last reason exactly when the detector returns true on the target
column of the current frame and that score is positive; when the score
is 0, no seasonality reason appears in the output regardless of the
detector's result. -/
theorem gate5_cosmetic (ext : Ext) (df : DataFrame) (t d : String) (hz : ℤ) :
    (analyze_dataset ext df t d hz).2.1 =
      (gate1 df t d).1 + (gate2 df t d).1 + (gate3 df).1 + (gate4 ext df d hz).2.1 ∧
    ((check_seasonality ext.toNum ext.acf ((gate4 ext df d hz).1.getCol t).values = true ∧
        0 < (analyze_dataset ext df t d hz).2.1) ↔
      (analyze_dataset ext df t d hz).2.2 =
        (gate1 df t d).2 ++ (gate2 df t d).2 ++ (gate3 df).2 ++ (gate4 ext df d hz).2.2 ++
          [seasonReason]) ∧
    ((analyze_dataset ext df t d hz).2.1 = 0 →
      seasonReason ∉ (analyze_dataset ext df t d hz).2.2) := by
  have hs := analyze_score_eq ext df t d hz
  have hr := analyze_reasons_eq ext df t d hz
  refine ⟨hs, ?_, ?_⟩
  · by_cases hc : check_seasonality ext.toNum ext.acf
        ((gate4 ext df d hz).1.getCol t).values = true ∧
        0 < (analyze_dataset ext df t d hz).2.1
    · have hg5 : gate5 ext (gate4 ext df d hz).1 t
          ((gate1 df t d).1 + (gate2 df t d).1 + (gate3 df).1 + (gate4 ext df d hz).2.1) =
            [seasonReason] := by
        simp only [gate5]
        rw [if_pos ⟨hc.1, by rw [← hs]; exact hc.2⟩]
      exact iff_of_true hc (by rw [hr, hg5])
    · have hg5 : gate5 ext (gate4 ext df d hz).1 t
          ((gate1 df t d).1 + (gate2 df t d).1 + (gate3 df).1 + (gate4 ext df d hz).2.1) =
            [] := by
        simp only [gate5]
        rw [if_neg]
        intro hand
        exact hc ⟨hand.1, by rw [hs]; exact hand.2⟩
      apply iff_of_false hc
      intro he
      rw [hr, hg5] at he
      have hlen := congrArg List.length he
      simp only [List.length_append, List.length_nil, List.length_singleton] at hlen
      omega
  · intro h0
    rw [hs] at h0
    have hg5 : gate5 ext (gate4 ext df d hz).1 t
        ((gate1 df t d).1 + (gate2 df t d).1 + (gate3 df).1 + (gate4 ext df d hz).2.1) =
          [] := by
      simp only [gate5]
      rw [if_neg]
      rintro ⟨-, hpos⟩
      omega
    rw [hr, hg5, List.append_nil]
    intro hmem
    simp only [List.mem_append] at hmem
    rcases hmem with (((h1 | h2) | h3) | h4)
    · exact season_not_in_gate1 df t d h1
    · exact season_not_in_gate2 df t d h2
    · exact season_not_in_gate3 df h3
    · exact season_not_in_gate4 ext df d hz h4

/-- Witness for C7 at a concrete zero-score input: with a failing date
parser the score is 0 and the seasonality reason is absent. -/
theorem gate5_cosmetic_witness :
    seasonReason ∉ (analyze_dataset extFail dfStr "y" "ds" 30).2.2 :=
  (gate5_cosmetic extFail dfStr "y" "ds" 30).2.2 (by decide)

/-- C4: gate 2 contributes at most one score increment and at most one
reason; whenever some categorical feature column has more than 10
distinct values, gate 2 fires exactly once, its single reason names the
first qualifying column in column order (no earlier feature column
qualifies), and the emitted pair is exactly (1, that reason). -/
theorem gate2_first_match_only (df : DataFrame) (t d : String) :
    ((gate2 df t d).1 ≤ 1 ∧ (gate2 df t d).2.length ≤ 1) ∧
    ((∃ c ∈ feature_cols df t d,
        (df.getCol c).dtype = DType.object ∧ (df.getCol c).nunique > 10) →
      ∃ col pre post, feature_cols df t d = pre ++ col :: post ∧
        (df.getCol col).dtype = DType.object ∧ (df.getCol col).nunique > 10 ∧
        (∀ x ∈ pre, ¬ ((df.getCol x).dtype = DType.object ∧ (df.getCol x).nunique > 10)) ∧
        gate2 df t d = (1, [granReason col (toString (df.getCol col).nunique)])) := by
  refine ⟨gate2_bounds df t d, ?_⟩
  rintro ⟨c0, hc0mem, hc0obj, hc0n⟩
  have hr : ∀ x, (isPotentialId df x && decide ((df.getCol x).nunique > 10)) = true ↔
      ((df.getCol x).dtype = DType.object ∧ (df.getCol x).nunique > 10) := by
    intro x
    simp only [isPotentialId, Bool.and_eq_true, decide_eq_true_eq]
    constructor
    · rintro ⟨⟨-, hobj⟩, h10⟩
      exact ⟨hobj, h10⟩
    · rintro ⟨hobj, h10⟩
      exact ⟨⟨by omega, hobj⟩, h10⟩
  have hfilter := findq_filter (isPotentialId df)
    (fun c => decide ((df.getCol c).nunique > 10)) (feature_cols df t d)
  have hsome : ((feature_cols df t d).find?
      (fun a => isPotentialId df a && decide ((df.getCol a).nunique > 10))).isSome := by
    rw [List.find?_isSome]
    exact ⟨c0, hc0mem, (hr c0).mpr ⟨hc0obj, hc0n⟩⟩
  obtain ⟨col, hfind⟩ := Option.isSome_iff_exists.mp hsome
  obtain ⟨pre, post, heq, hcolr, hpre⟩ := find?_eq_some_split hfind
  have hcolq := (hr col).mp hcolr
  refine ⟨col, pre, post, heq, hcolq.1, hcolq.2, ?_, ?_⟩
  · intro x hx hq
    have h2 := (hr x).mpr hq
    rw [hpre x hx] at h2
    exact Bool.noConfusion h2
  · have hmem2 : col ∈ (feature_cols df t d).filter (isPotentialId df) := by
      apply List.mem_filter.mpr
      have hb := hcolr
      rw [Bool.and_eq_true] at hb
      refine ⟨?_, hb.1⟩
      rw [heq]
      exact List.mem_append.mpr (Or.inr (List.mem_cons_self col post))
    simp only [gate2]
    rw [if_pos (List.length_pos.mpr (List.ne_nil_of_mem hmem2)), hfilter, hfind]

/-- Witness for C4: on a dataset with two qualifying categorical columns
(12 and 13 distinct values), gate 2 reports only the first. -/
theorem gate2_first_match_only_witness :
    ∃ col pre post, feature_cols dfTwoCats "t" "d" = pre ++ col :: post ∧
      (dfTwoCats.getCol col).dtype = DType.object ∧
      (dfTwoCats.getCol col).nunique > 10 ∧
      (∀ x ∈ pre, ¬ ((dfTwoCats.getCol x).dtype = DType.object ∧
        (dfTwoCats.getCol x).nunique > 10)) ∧
      gate2 dfTwoCats "t" "d" =
        (1, [granReason col (toString (dfTwoCats.getCol col).nunique)]) :=
  (gate2_first_match_only dfTwoCats "t" "d").2 ⟨"a", by decide, by decide, by decide⟩

/-- The demo date parser is idempotent on already-parsed datetime
columns (as pandas `to_datetime` is). -/
theorem extDemo_toDatetime_dates :
    ∀ ds : List ℤ, extDemo.toDatetime (ds.map Value.date) = Except.ok ds := by
  intro ds
  induction ds with
  | nil => rfl
  | cons a tl ih => simpa [extDemo] using ih

/-- C9: the scorer is deterministic and idempotent across runs: rerunning
`analyze_dataset` with the same parameters on the dataset state left by a
first run returns the identical frame, score and ordered reason list,
provided the external date parser maps an already-parsed datetime column
to its own day numbers (as pandas `to_datetime` does); on a frame the
first run left untouched the second run is literally the same computation. -/
theorem analyze_idempotent (ext : Ext) (df : DataFrame) (t d : String) (hz : ℤ)
    (hid : ∀ ds : List ℤ, ext.toDatetime (ds.map Value.date) = Except.ok ds) :
    analyze_dataset ext (analyze_dataset ext df t d hz).1 t d hz =
      analyze_dataset ext df t d hz := by
  rw [analyze_frame_eq]
  rcases gate4_frame_cases ext df d hz with hf | ⟨c, dates, hc, hp, hf⟩
  · rw [hf]
  · rw [hf]
    have hc2 : (df.setCol d ⟨DType.datetime64, dates.map Value.date⟩).getCol? d =
        some ⟨DType.datetime64, dates.map Value.date⟩ :=
      getCol?_setCol_self df _ (by rw [hc]; rfl)
    have h4 : gate4 ext (df.setCol d ⟨DType.datetime64, dates.map Value.date⟩) d hz
        = gate4 ext df d hz := by
      simp only [gate4, hc, hp, hc2, hid dates, setCol_setCol_self]
    have h1 := gate1_congr t d (columns_setCol df d ⟨DType.datetime64, dates.map Value.date⟩)
    have h2 := gate2_congr t d (columns_setCol df d ⟨DType.datetime64, dates.map Value.date⟩)
      (fun x hx => getCol_setCol_ne df _ hx)
    have h3 : gate3 (df.setCol d ⟨DType.datetime64, dates.map Value.date⟩) = gate3 df := by
      simp only [gate3, nrows_setCol]
    simp only [analyze_dataset, h1, h2, h3, h4]

/-- Witness for C9 on the concrete `dfC1`: the second run reproduces the
first run's result exactly. -/
theorem analyze_idempotent_witness :
    analyze_dataset extDemo (analyze_dataset extDemo dfC1 "y" "ds" 30).1 "y" "ds" 30 =
      analyze_dataset extDemo dfC1 "y" "ds" 30 :=
  analyze_idempotent extDemo dfC1 "y" "ds" 30 extDemo_toDatetime_dates

end AutoML
